import Mathlib

/-!
Verification development for the universal-mcp whatsapp tool layer
(src/universal_mcp_whatsapp/whatsapp.py and app.py).

The repository is a synchronous translator between an agent-host tool
interface and a WhatsApp HTTP bridge.  The HTTP transport is modelled as
an oracle: every function that performs a request in the source receives
the bridge response as an explicit argument (for the JSON endpoints, the
dictionary value that `_make_api_request` returns; for the auth endpoint,
the raw HTTP outcome).  The properties under study concern response
mapping, parsing, authentication gating and key caching, which this
embedding captures.

Modelling conventions:
* JSON values are `JVal`; dictionaries are association lists with
  first-match lookup (`dget`), mirroring Python dict `.get` and `[...]`.
* Python exceptions are `Except PyError`; every function that can raise
  returns in that monad.
* `datetime.fromisoformat` is modelled as accepting any string, with the
  instant represented by its source string.  No property under study
  depends on timestamp arithmetic, only on presence or absence of the
  field.
* Python `str.endswith` is modelled by `pyEndsWith`, the suffix test on
  the sequence of characters, which is its documented semantics.
* Fields annotated `str` in the source dataclasses are modelled as
  `String`; a bridge payload carrying a non-string in such a field is
  modelled as a `typeError` at record construction (Python would defer
  the failure to the first string operation; no property under study
  exercises such payloads).  Optional fields that the source passes
  through unchecked are stored as `Option JVal`.
-/

namespace WhatsappMcp

/-- Python exception values raised by this code base. -/
inductive PyError where
  | valueError (msg : String)
  | keyError (k : String)
  | typeError (msg : String)
  | notAuthorized (msg : String)
  | notImplementedError (msg : String)
deriving Repr, DecidableEq

/-- JSON values, as produced by response.json() in the bridge client. -/
inductive JVal where
  | jnull : JVal
  | jbool : Bool → JVal
  | jnum : Int → JVal
  | jstr : String → JVal
  | jarr : List JVal → JVal
  | jobj : List (String × JVal) → JVal

/-- A JSON dictionary: what `_make_api_request` returns to its callers. -/
abbrev Dict := List (String × JVal)

/-- First-match key lookup in a dictionary, mirroring Python dict access
(the keys of a Python dict are unique, so first match is exact). -/
def dget : Dict → String → Option JVal
  | [], _ => none
  | (k1, v) :: rest, k => if k1 = k then some v else dget rest k

/-- Python `d.get(k, dflt)`. -/
def dgetD (d : Dict) (k : String) (dflt : JVal) : JVal :=
  (dget d k).getD dflt

mutual

/-- Python str() formatting of a JSON value, as applied by f-strings in
the source.  Scalars follow Python exactly; container rendering is a
plain JSON-style join (Python repr would also quote nested strings, but
`_make_api_request` only ever constructs string error values, and no
property under study formats a container). -/
def pyStr : JVal → String
  | .jnull => "None"
  | .jbool true => "True"
  | .jbool false => "False"
  | .jnum n => toString n
  | .jstr s => s
  | .jarr xs => "[" ++ pyStrList xs ++ "]"
  | .jobj fs => "\x7b" ++ pyStrFields fs ++ "\x7d"

/-- Comma-separated rendering of the elements of a JSON array. -/
def pyStrList : List JVal → String
  | [] => ""
  | [x] => pyStr x
  | x :: y :: rest => pyStr x ++ ", " ++ pyStrList (y :: rest)

/-- Comma-separated rendering of the fields of a JSON object. -/
def pyStrFields : List (String × JVal) → String
  | [] => ""
  | [kv] => kv.1 ++ ": " ++ pyStr kv.2
  | kv :: kw :: rest => kv.1 ++ ": " ++ pyStr kv.2 ++ ", " ++ pyStrFields (kw :: rest)

end

/-- Python truthiness of a JSON value. -/
def JVal.truthy : JVal → Bool
  | .jnull => false
  | .jbool b => b
  | .jnum n => n != 0
  | .jstr s => s != ""
  | .jarr xs => !xs.isEmpty
  | .jobj fs => !fs.isEmpty

/-- Python subscript `v[k]` with a string key: KeyError when the key is
missing from a dict, TypeError when the value is not a dict. -/
def JVal.index (v : JVal) (k : String) : Except PyError JVal :=
  match v with
  | .jobj fs =>
    match dget fs k with
    | some x => .ok x
    | none => .error (.keyError k)
  | _ => .error (.typeError "value is not subscriptable by a string key")

/-- Python `v.get(k)` on a JSON value: None (here `none`) for a missing
key, TypeError when the value is not a dict. -/
def JVal.jget (v : JVal) (k : String) : Except PyError (Option JVal) :=
  match v with
  | .jobj fs => .ok (dget fs k)
  | _ => .error (.typeError "value has no attribute get")

/-- Python `str.endswith`: suffix test on the sequence of characters. -/
def pyEndsWith (s suffix : String) : Bool :=
  List.isSuffixOf suffix.data s.data

/-- Extraction of a Python str from a JSON value; see the header note on
fields annotated `str`. -/
def asStr : JVal → Except PyError String
  | .jstr s => .ok s
  | _ => .error (.typeError "expected a string")

/-- The Message dataclass.  The timestamp instant is represented by its
ISO string. -/
structure Message where
  timestamp : String
  sender : String
  content : String
  is_from_me : Bool
  chat_jid : String
  id : String
  chat_name : Option String := none
  media_type : Option String := none
deriving Repr, DecidableEq

/-- The Chat dataclass.  Fields the source passes through unchecked are
stored as `Option JVal`. -/
structure Chat where
  jid : String
  name : Option JVal
  last_message_time : Option String
  last_message : Option JVal := none
  last_sender : Option JVal := none
  last_is_from_me : Option JVal := none

/-- Chat.is_group: determine if a chat is a group based on the JID
pattern, `self.jid.endswith("@g.us")`. -/
def Chat.is_group (c : Chat) : Bool :=
  pyEndsWith c.jid "@g.us"

/-- The Contact dataclass. -/
structure Contact where
  phone_number : String
  name : Option JVal
  jid : String

/-- The MessageContext dataclass. -/
structure MessageContext where
  message : Message
  before : List Message
  after : List Message

/-- Construction of one Chat record from a bridge payload entry, as
written inline in list_chats, get_contact_chats, get_chat and
get_direct_chat_by_contact.  Keyword arguments evaluate left to right:
jid first (subscript, may raise KeyError), then the .get fields; the
last_message_time field parses only when present and truthy. -/
def parseChat (chat_data : JVal) : Except PyError Chat := do
  let jv ← chat_data.index "jid"
  let jid ← asStr jv
  let name ← chat_data.jget "name"
  let lmtVal ← chat_data.jget "last_message_time"
  let last_message_time ←
    match lmtVal with
    | some v =>
      if v.truthy then do
        let s ← asStr v
        pure (some s)
      else
        pure (none : Option String)
    | none => pure (none : Option String)
  let last_message ← chat_data.jget "last_message"
  let last_sender ← chat_data.jget "last_sender"
  let last_is_from_me ← chat_data.jget "last_is_from_me"
  pure { jid, name, last_message_time, last_message, last_sender, last_is_from_me }

/-- Construction of one Contact record from a bridge payload entry, as
written inline in search_contacts.  Evaluation order: phone_number
(subscript), name (.get), jid (subscript). -/
def parseContact (contact_data : JVal) : Except PyError Contact := do
  let pv ← contact_data.index "phone_number"
  let phone_number ← asStr pv
  let name ← contact_data.jget "name"
  let jv ← contact_data.index "jid"
  let jid ← asStr jv
  pure { phone_number, name, jid }

/-- The `for chat_data in chats_data` accumulation loop shared by
list_chats and get_contact_chats: parse in order, raising at the first
bad entry. -/
def parseChats : List JVal → Except PyError (List Chat)
  | [] => .ok []
  | c :: rest => do
    let chat ← parseChat c
    let chats ← parseChats rest
    pure (chat :: chats)

/-- The `for contact_data in contacts_data` accumulation loop of
search_contacts. -/
def parseContacts : List JVal → Except PyError (List Contact)
  | [] => .ok []
  | c :: rest => do
    let contact ← parseContact c
    let contacts ← parseContacts rest
    pure (contact :: contacts)

/-- whatsapp.list_messages, response-handling part: an error value is
formatted into an error string; otherwise the messages payload passes
through as-is (default string when absent).  The source returns a str or
the raw payload; it never raises here. -/
def list_messages (result : Dict) : JVal :=
  match dget result "error" with
  | some v => .jstr ("Error retrieving messages: " ++ pyStr v)
  | none => dgetD result "messages" (.jstr "No messages found")

/-- whatsapp.get_message_context, response-handling part: an error value
raises ValueError; any success payload reaches the explicit
NotImplementedError. -/
def get_message_context (result : Dict) : Except PyError MessageContext :=
  match dget result "error" with
  | some v => .error (.valueError ("Error getting message context: " ++ pyStr v))
  | none => .error (.notImplementedError "Message context API not yet implemented in bridge")

/-- whatsapp.list_chats, response-handling part: an error value is
logged and yields the empty list; otherwise the chats payload is parsed
entry by entry.  A non-array chats payload is modelled as a TypeError
(Python would fail while iterating or while subscripting the elements;
no property under study exercises such payloads). -/
def list_chats (result : Dict) : Except PyError (List Chat) :=
  match dget result "error" with
  | some _ => .ok []
  | none =>
    match dgetD result "chats" (.jarr []) with
    | .jarr xs => parseChats xs
    | _ => .error (.typeError "chats payload is not a list")

/-- whatsapp.search_contacts, response-handling part: an error value is
logged and yields the empty list; otherwise the contacts payload is
parsed entry by entry. -/
def search_contacts (result : Dict) : Except PyError (List Contact) :=
  match dget result "error" with
  | some _ => .ok []
  | none =>
    match dgetD result "contacts" (.jarr []) with
    | .jarr xs => parseContacts xs
    | _ => .error (.typeError "contacts payload is not a list")

/-- whatsapp.get_contact_chats, response-handling part: textually the
same response handling as list_chats in the source. -/
def get_contact_chats (result : Dict) : Except PyError (List Chat) :=
  match dget result "error" with
  | some _ => .ok []
  | none =>
    match dgetD result "chats" (.jarr []) with
    | .jarr xs => parseChats xs
    | _ => .error (.typeError "chats payload is not a list")

/-- whatsapp.get_chat, response-handling part: an error value is logged
and yields None; a missing or falsy chat payload yields None; otherwise
the single chat record is parsed. -/
def get_chat (result : Dict) : Except PyError (Option Chat) :=
  match dget result "error" with
  | some _ => .ok none
  | none =>
    match dget result "chat" with
    | none => .ok none
    | some v =>
      if v.truthy then do
        let c ← parseChat v
        pure (some c)
      else
        .ok none

/-- Response-handling tail shared textually by send_message, send_file
and send_audio_message: an error value maps to (False, error); otherwise
the (success, message) pair is read with defaults. -/
def send_result (result : Dict) : JVal × JVal :=
  match dget result "error" with
  | some v => (.jbool false, v)
  | none => (dgetD result "success" (.jbool false), dgetD result "message" (.jstr "Unknown response"))

/-- Observable outcome of send_audio_message: the returned (success,
message) pair plus an execution trace of the two collaborators (number
of converter invocations, whether the bridge send endpoint was
contacted). -/
structure SendAudioOutcome where
  success : JVal
  message : JVal
  convCalls : Nat
  bridgeCalled : Bool

/-- whatsapp.send_audio_message.  The converter collaborator
(audio.convert_to_opus_ogg_temp) is an oracle from the input path to
either a converted path or the exception text; the bridge send response
is the oracle `result`. -/
def send_audio_message (media_path : String) (convert : String → Except String String)
    (result : Dict) : SendAudioOutcome :=
  if pyEndsWith media_path ".ogg" then
    let r := send_result result
    { success := r.1, message := r.2, convCalls := 0, bridgeCalled := true }
  else
    match convert media_path with
    | .error e =>
      { success := .jbool false
        message := .jstr ("Error converting file to opus ogg. You likely need to install ffmpeg: " ++ e)
        convCalls := 1
        bridgeCalled := false }
    | .ok _ =>
      let r := send_result result
      { success := r.1, message := r.2, convCalls := 1, bridgeCalled := true }

/-- whatsapp.download_media, response-handling part: an error value is
logged and yields None; a truthy success flag yields the path field
(None when absent); otherwise None. -/
def download_media (result : Dict) : Option JVal :=
  match dget result "error" with
  | some _ => none
  | none =>
    if (dgetD result "success" (.jbool false)).truthy then
      dget result "path"
    else
      none

/-- WhatsappApp.download_media, result-reshaping part: a truthy file
path from the bridge client becomes a success dictionary carrying
file_path; anything else becomes the fixed failure dictionary. -/
def app_download_media (result : Dict) : Dict :=
  match download_media result with
  | some p =>
    if p.truthy then
      [("success", .jbool true), ("message", .jstr "Media downloaded successfully"), ("file_path", p)]
    else
      [("success", .jbool false), ("message", .jstr "Failed to download media")]
  | none => [("success", .jbool false), ("message", .jstr "Failed to download media")]

/-- The host integration object, as probed dynamically by the app layer:
`clientApiKey` models the integration.client.api_key attribute chain
(`none` when the chain is missing, so get_api_key raises);
`getCredentialsError` models integration.get_credentials (`some msg`
when it raises an exception rendering as msg).  A present api_key
attribute holding None behaves like the empty string under every
truthiness test in the source and is subsumed by the falsy-key cases. -/
structure Integration where
  clientApiKey : Option String
  getCredentialsError : Option String
deriving Repr, DecidableEq

/-- The mutable state of a WhatsappApp instance: the optional host
integration, the base_url attribute, and the private _api_key cache. -/
structure WhatsappApp where
  integration : Option Integration
  base_url : String
  api_key_cache : Option String
deriving Repr, DecidableEq

/-- WhatsappApp constructor: base_url is the fixed bridge base, the key
cache starts empty. -/
def mkApp (integration : Option Integration) : WhatsappApp :=
  { integration, base_url := "http://localhost:8080", api_key_cache := none }

/-- WhatsappApp.get_api_key: returns integration.client.api_key when the
attribute chain exists, and raises ValueError otherwise (also when no
integration is configured). -/
def get_api_key (app : WhatsappApp) : Except PyError String :=
  match app.integration with
  | some integ =>
    match integ.clientApiKey with
    | some k => .ok k
    | none => .error (.valueError "No API key available from integration")
  | none => .error (.valueError "No API key available from integration")

/-- The api_key property: `if self._api_key:` returns the cached value
when truthy; otherwise it resolves through get_api_key and stores the
result.  Returns the key together with the successor state. -/
def api_key (app : WhatsappApp) : Except PyError (String × WhatsappApp) :=
  match app.api_key_cache with
  | some k =>
    if k = "" then
      match get_api_key app with
      | .ok k2 => .ok (k2, { app with api_key_cache := some k2 })
      | .error e => .error e
    else
      .ok (k, app)
  | none =>
    match get_api_key app with
    | .ok k2 => .ok (k2, { app with api_key_cache := some k2 })
    | .error e => .error e

/-- Outcome of the POST to the bridge /api/auth endpoint: a 200 response
whose JSON body carries the given status field (`none` for an absent or
non-string status), a non-200 response, or an exception (connection
error, timeout, or an undecodable 200 body). -/
inductive BridgeAuthResp where
  | ok (status : Option String)
  | httpErr (code : Nat) (text : String)
  | exn (msg : String)
deriving Repr, DecidableEq

/-- The Python value that _authenticate_whatsapp produces: True, a URL
message string, False, the implicit None of falling off the try block,
or a propagating exception. -/
inductive AuthAttemptResult where
  | retTrue
  | retStr (msg : String)
  | retFalse
  | retNone
  | raised (e : PyError)
deriving Repr, DecidableEq

/-- Result of _authenticate_whatsapp together with the successor app
state and whether the bridge auth endpoint was actually contacted. -/
structure AuthAttempt where
  result : AuthAttemptResult
  app : WhatsappApp
  bridgeAuthCalled : Bool
deriving Repr, DecidableEq

/-- The hardcoded QR pairing URL built by _authenticate_whatsapp. -/
def qrUrl (user_id : String) : String :=
  "http://localhost:8080/api/qr?user_id=" ++ user_id

/-- The URL message string returned by _authenticate_whatsapp on the
qr_required, non-200 and exception paths. -/
def authUrlMessage (user_id : String) : String :=
  "Please ask the user to visit the following url to authorize WhatsApp: " ++ qrUrl user_id ++ ". Render the url in proper markdown format with a clickable link."

/-- The `except Exception` handler of _authenticate_whatsapp: re-resolve
the key through the api_key property (an exception here propagates), and
return the URL message when the key is truthy, else False. -/
def authExceptionHandler (app : WhatsappApp) (bridgeAuthCalled : Bool) : AuthAttempt :=
  match api_key app with
  | .error e => { result := .raised e, app := app, bridgeAuthCalled }
  | .ok (u, app2) =>
    if u = "" then
      { result := .retFalse, app := app2, bridgeAuthCalled }
    else
      { result := .retStr (authUrlMessage u), app := app2, bridgeAuthCalled }

/-- WhatsappApp._authenticate_whatsapp.  The try block resolves the key
(raising into the handler when resolution fails or the key is falsy),
POSTs to the auth endpoint, and maps the response: 200 qr_required and
any non-200 status yield the URL message, 200 connected yields True, any
other 200 body falls off the block (None), and an exception during the
POST enters the handler. -/
def authenticate_whatsapp (app : WhatsappApp) (resp : BridgeAuthResp) : AuthAttempt :=
  match api_key app with
  | .error _ => authExceptionHandler app false
  | .ok (u, app1) =>
    if u = "" then
      authExceptionHandler app1 false
    else
      match resp with
      | .ok status =>
        if status = some "qr_required" then
          { result := .retStr (authUrlMessage u), app := app1, bridgeAuthCalled := true }
        else if status = some "connected" then
          { result := .retTrue, app := app1, bridgeAuthCalled := true }
        else
          { result := .retNone, app := app1, bridgeAuthCalled := true }
      | .httpErr _ _ =>
        { result := .retStr (authUrlMessage u), app := app1, bridgeAuthCalled := true }
      | .exn _ => authExceptionHandler app1 true

/-- WhatsappApp._authenticator: with no integration, delegate to the
WhatsApp auth flow and convert its value into success or
NotAuthorizedError; with an integration, get_credentials decides. -/
def authenticator (app : WhatsappApp) (resp : BridgeAuthResp) :
    Except PyError Unit × WhatsappApp × Bool :=
  match app.integration with
  | none =>
    let att := authenticate_whatsapp app resp
    match att.result with
    | .raised e => (.error e, att.app, att.bridgeAuthCalled)
    | .retTrue => (.ok (), att.app, att.bridgeAuthCalled)
    | .retStr s => (.error (.notAuthorized s), att.app, att.bridgeAuthCalled)
    | .retFalse =>
      (.error (.notAuthorized "WhatsApp authentication failed. Please check your configuration."),
        att.app, att.bridgeAuthCalled)
    | .retNone =>
      (.error (.notAuthorized "WhatsApp authentication failed. Please check your configuration."),
        att.app, att.bridgeAuthCalled)
  | some integ =>
    match integ.getCredentialsError with
    | none => (.ok (), app, false)
    | some e => (.error (.notAuthorized e), app, false)

/-- Observable outcome of one Tool Facade operation: the returned value
or propagated exception, the successor app state, whether the bridge
auth endpoint was contacted, and whether the requested bridge operation
was performed. -/
structure ToolOutcome (α : Type) where
  result : Except PyError α
  app : WhatsappApp
  bridgeAuthCalled : Bool
  opCalled : Bool

/-- Common shape of every Tool Facade operation after parameter
validation: trigger _authenticator (an exception aborts the call), read
user_id from the api_key property, then run the bridge-client operation
on the bridge response for that endpoint. -/
def toolCall (app : WhatsappApp) (authResp : BridgeAuthResp) (opResult : Dict)
    (op : Dict → Except PyError α) : ToolOutcome α :=
  match authenticator app authResp with
  | (.error e, app1, bc) =>
    { result := .error e, app := app1, bridgeAuthCalled := bc, opCalled := false }
  | (.ok _, app1, bc) =>
    match api_key app1 with
    | .error e =>
      { result := .error e, app := app1, bridgeAuthCalled := bc, opCalled := false }
    | .ok (_, app2) =>
      { result := op opResult, app := app2, bridgeAuthCalled := bc, opCalled := true }

/-! Theorems -/

/-- Characterization of the endswith model: a string ends with a suffix
exactly when it decomposes as some prefix followed by that suffix. -/
theorem pyEndsWith_iff (s p : String) :
    pyEndsWith s p = true ↔ ∃ pre : String, s = pre ++ p := by
  simp only [pyEndsWith]
  rw [List.isSuffixOf_iff_suffix]
  constructor
  · rintro ⟨t, ht⟩
    exact ⟨⟨t⟩, String.ext (by simpa using ht.symm)⟩
  · rintro ⟨pre, rfl⟩
    exact ⟨pre.data, by simp⟩

/-- C8: for every string jid, Chat.is_group is true exactly when jid
ends with the group-domain suffix, i.e. decomposes as a prefix followed
by "@g.us"; in particular it is false for the empty jid. -/
theorem chat_is_group_iff_group_suffix :
    (∀ (jid : String) (name : Option JVal) (lmt : Option String)
      (lm ls lifm : Option JVal),
      (Chat.mk jid name lmt lm ls lifm).is_group = true
        ↔ ∃ pre : String, jid = pre ++ "@g.us")
    ∧ (Chat.mk "" none none none none none).is_group = false := by
  exact ⟨fun jid name lmt lm ls lifm => pyEndsWith_iff jid "@g.us", rfl⟩

/-- C1 counterexample: on a bridge error value, list_messages does not
return an empty sequence; it hands the caller an error-bearing string. -/
theorem list_messages_error_value_counterexample :
    list_messages [("error", .jstr "HTTP 500: boom")] =
      .jstr "Error retrieving messages: HTTP 500: boom"
    ∧ list_messages [("error", .jstr "HTTP 500: boom")] ≠ .jarr []
    ∧ list_messages [("error", .jstr "HTTP 500: boom")] ≠ .jstr "" := by
  refine ⟨rfl, ?_, ?_⟩ <;> simp [list_messages, dget, pyStr]

/-- C1 amended: on a bridge error value the three record-returning list
operations return the empty list without raising, while list_messages
returns the formatted error string (also without raising, but an
error-bearing value rather than an empty sequence). -/
theorem list_ops_bridge_error_fail_soft (result : Dict) (v : JVal)
    (h : dget result "error" = some v) :
    search_contacts result = .ok []
    ∧ list_chats result = .ok []
    ∧ get_contact_chats result = .ok []
    ∧ list_messages result = .jstr ("Error retrieving messages: " ++ pyStr v) := by
  simp [search_contacts, list_chats, get_contact_chats, list_messages, h]

/-- Witness for the C1 amended theorem at a concrete HTTP 500 error. -/
theorem list_ops_bridge_error_fail_soft_witness :
    search_contacts [("error", .jstr "HTTP 500: x")] = .ok []
    ∧ list_chats [("error", .jstr "HTTP 500: x")] = .ok []
    ∧ get_contact_chats [("error", .jstr "HTTP 500: x")] = .ok []
    ∧ list_messages [("error", .jstr "HTTP 500: x")] =
        .jstr ("Error retrieving messages: " ++ pyStr (.jstr "HTTP 500: x")) :=
  list_ops_bridge_error_fail_soft [("error", .jstr "HTTP 500: x")] (.jstr "HTTP 500: x") rfl

/-- C4: get_message_context raises on every input: ValueError on a
bridge error value, NotImplementedError on every bridge success payload;
it never returns a context value, empty or otherwise. -/
theorem get_message_context_always_raises (result : Dict) :
    (∃ e, get_message_context result = .error e)
    ∧ (∀ v, dget result "error" = some v →
        get_message_context result =
          .error (.valueError ("Error getting message context: " ++ pyStr v)))
    ∧ (dget result "error" = none →
        get_message_context result =
          .error (.notImplementedError "Message context API not yet implemented in bridge")) := by
  refine ⟨?_, fun v hv => by simp [get_message_context, hv],
    fun h => by simp [get_message_context, h]⟩
  cases hv : dget result "error" with
  | some v =>
    exact ⟨.valueError ("Error getting message context: " ++ pyStr v),
      by simp [get_message_context, hv]⟩
  | none =>
    exact ⟨.notImplementedError "Message context API not yet implemented in bridge",
      by simp [get_message_context, hv]⟩

/-- Witness for the C4 theorem at a concrete error value and a concrete
success payload. -/
theorem get_message_context_always_raises_witness :
    get_message_context [("error", .jstr "boom")] =
      .error (.valueError ("Error getting message context: " ++ pyStr (.jstr "boom")))
    ∧ get_message_context [] =
      .error (.notImplementedError "Message context API not yet implemented in bridge") :=
  ⟨(get_message_context_always_raises [("error", .jstr "boom")]).2.1 (.jstr "boom") rfl,
    (get_message_context_always_raises []).2.2 rfl⟩

/-- C9: on an instance constructed with no integration, every tool call
propagates the ValueError from key resolution re-raised inside the auth
exception handler, before the bridge auth endpoint or the operation
endpoint is contacted, and never surfaces a NotAuthorized signal. -/
theorem no_integration_tool_call_raises_value_error {α : Type}
    (authResp : BridgeAuthResp) (opResult : Dict) (op : Dict → Except PyError α) :
    toolCall (mkApp none) authResp opResult op =
      { result := .error (.valueError "No API key available from integration"),
        app := mkApp none, bridgeAuthCalled := false, opCalled := false }
    ∧ ∀ msg, (toolCall (mkApp none) authResp opResult op).result ≠
        .error (.notAuthorized msg) := by
  have h1 : toolCall (mkApp none) authResp opResult op =
      { result := .error (.valueError "No API key available from integration"),
        app := mkApp none, bridgeAuthCalled := false, opCalled := false } := rfl
  refine ⟨h1, fun msg hmsg => ?_⟩
  rw [h1] at hmsg
  simp at hmsg

/-- C2: when the bridge auth check answers 200 with status qr_required
for key u, the gate raises NotAuthorized whose message carries exactly
the URL base_url/api/qr?user_id=u for the configured base, and the
requested operation is not performed. -/
theorem qr_required_raises_not_authorized {α : Type} (u : String) (hu : u ≠ "")
    (opResult : Dict) (op : Dict → Except PyError α) :
    toolCall { mkApp none with api_key_cache := some u }
        (.ok (some "qr_required")) opResult op =
      { result := .error (.notAuthorized (authUrlMessage u)),
        app := { mkApp none with api_key_cache := some u },
        bridgeAuthCalled := true, opCalled := false }
    ∧ authUrlMessage u =
        "Please ask the user to visit the following url to authorize WhatsApp: "
          ++ ((mkApp none).base_url ++ "/api/qr?user_id=" ++ u)
          ++ ". Render the url in proper markdown format with a clickable link." := by
  constructor
  · simp [toolCall, authenticator, authenticate_whatsapp, api_key, mkApp, hu]
  · rfl

/-- Witness for the C2 theorem at key u1, evaluated on the contacts
operation. -/
theorem qr_required_raises_not_authorized_witness :
    toolCall { mkApp none with api_key_cache := some "u1" }
        (.ok (some "qr_required")) [] search_contacts =
      { result := .error (.notAuthorized (authUrlMessage "u1")),
        app := { mkApp none with api_key_cache := some "u1" },
        bridgeAuthCalled := true, opCalled := false }
    ∧ authUrlMessage "u1" =
        "Please ask the user to visit the following url to authorize WhatsApp: "
          ++ ((mkApp none).base_url ++ "/api/qr?user_id=" ++ "u1")
          ++ ". Render the url in proper markdown format with a clickable link." :=
  qr_required_raises_not_authorized "u1" (by decide) [] search_contacts

/-- C3: any exception while checking the bridge auth status (connection
error, timeout, undecodable body) makes the gate raise NotAuthorized
carrying the best-effort QR authorization URL, and nothing else. -/
theorem auth_transport_failure_raises_qr_url (u : String) (hu : u ≠ "") (msg : String) :
    authenticator { mkApp none with api_key_cache := some u } (.exn msg) =
      (.error (.notAuthorized (authUrlMessage u)),
        { mkApp none with api_key_cache := some u }, true)
    ∧ authUrlMessage u =
        "Please ask the user to visit the following url to authorize WhatsApp: "
          ++ ((mkApp none).base_url ++ "/api/qr?user_id=" ++ u)
          ++ ". Render the url in proper markdown format with a clickable link." := by
  constructor
  · simp [authenticator, authenticate_whatsapp, authExceptionHandler, api_key, mkApp, hu]
  · rfl

/-- Witness for the C3 theorem at key u1 and a concrete timeout text. -/
theorem auth_transport_failure_raises_qr_url_witness :
    authenticator { mkApp none with api_key_cache := some "u1" } (.exn "timed out") =
      (.error (.notAuthorized (authUrlMessage "u1")),
        { mkApp none with api_key_cache := some "u1" }, true)
    ∧ authUrlMessage "u1" =
        "Please ask the user to visit the following url to authorize WhatsApp: "
          ++ ((mkApp none).base_url ++ "/api/qr?user_id=" ++ "u1")
          ++ ". Render the url in proper markdown format with a clickable link." :=
  auth_transport_failure_raises_qr_url "u1" (by decide) "timed out"

/-- C5: send_audio_message converts only paths that do not end in .ogg:
an .ogg path reaches the bridge with no converter call; any other path
invokes the converter exactly once before any bridge contact, and a
conversion failure returns success False with the Error-converting-file
message carrying the cause, without contacting the bridge. -/
theorem send_audio_message_conversion_policy (media_path : String)
    (convert : String → Except String String) (result : Dict) :
    (pyEndsWith media_path ".ogg" = true →
      (send_audio_message media_path convert result).convCalls = 0
      ∧ (send_audio_message media_path convert result).bridgeCalled = true)
    ∧ (pyEndsWith media_path ".ogg" = false →
      (send_audio_message media_path convert result).convCalls = 1
      ∧ (∀ e, convert media_path = .error e →
          send_audio_message media_path convert result =
            { success := .jbool false,
              message := .jstr ("Error converting file"
                ++ " to opus ogg. You likely need to install ffmpeg: " ++ e),
              convCalls := 1, bridgeCalled := false })
      ∧ (∀ p, convert media_path = .ok p →
          (send_audio_message media_path convert result).bridgeCalled = true)) := by
  constructor
  · intro hogg
    simp [send_audio_message, hogg]
  · intro hogg
    refine ⟨?_, fun e he => ?_, fun p hp => ?_⟩
    · cases hc : convert media_path <;> simp [send_audio_message, hogg, hc]
    · simp [send_audio_message, hogg, he]
    · simp [send_audio_message, hogg, hp]

/-- Witness for the C5 theorem: an .ogg path skips conversion; an .mp3
path with a failing converter returns the conversion error and does not
contact the bridge. -/
theorem send_audio_message_conversion_policy_witness :
    (send_audio_message "voice.ogg" (fun p => .ok p) []).convCalls = 0
    ∧ send_audio_message "voice.mp3" (fun _ => .error "ffmpeg missing") [] =
        { success := .jbool false,
          message := .jstr ("Error converting file"
            ++ " to opus ogg. You likely need to install ffmpeg: " ++ "ffmpeg missing"),
          convCalls := 1, bridgeCalled := false } :=
  ⟨((send_audio_message_conversion_policy "voice.ogg" (fun p => .ok p) []).1
      (by decide)).1,
    ((send_audio_message_conversion_policy "voice.mp3"
        (fun _ => .error "ffmpeg missing") []).2 (by decide)).2.1 "ffmpeg missing" rfl⟩

/-- C6: download_media reshaping.  With a string-or-absent path (the
shape the bridge contract gives the path field), the facade returns the
success dictionary carrying file_path exactly when the bridge answered
no error, a truthy success flag and a non-empty path; in every other
case it returns the fixed failure dictionary, which carries no
file_path key. -/
theorem download_media_result_shape (result : Dict) :
    (∀ p : String, dget result "error" = none →
      (dgetD result "success" (.jbool false)).truthy = true →
      dget result "path" = some (.jstr p) → p ≠ "" →
      app_download_media result =
        [("success", .jbool true), ("message", .jstr "Media downloaded successfully"),
          ("file_path", .jstr p)])
    ∧ ((dget result "error" ≠ none
        ∨ (dgetD result "success" (.jbool false)).truthy = false
        ∨ dget result "path" = none
        ∨ dget result "path" = some (.jstr "")) →
      app_download_media result =
        [("success", .jbool false), ("message", .jstr "Failed to download media")])
    ∧ dget [("success", .jbool false), ("message", .jstr "Failed to download media")]
        "file_path" = none
    ∧ ((dget result "path" = none ∨ ∃ s : String, dget result "path" = some (.jstr s)) →
      app_download_media result =
          [("success", .jbool false), ("message", .jstr "Failed to download media")]
        ∨ ∃ p : String, p ≠ ""
            ∧ dget result "error" = none
            ∧ (dgetD result "success" (.jbool false)).truthy = true
            ∧ dget result "path" = some (.jstr p)
            ∧ app_download_media result =
                [("success", .jbool true),
                  ("message", .jstr "Media downloaded successfully"),
                  ("file_path", .jstr p)]) := by
  have hempty : (JVal.jstr "").truthy = false := rfl
  refine ⟨?_, ?_, rfl, ?_⟩
  · intro p herr hsucc hpath hp
    have hpt : (JVal.jstr p).truthy = true := by simp [JVal.truthy, hp]
    simp [app_download_media, download_media, herr, hsucc, hpath, hpt]
  · intro hdisj
    cases he : dget result "error" with
    | some v => simp [app_download_media, download_media, he]
    | none =>
      rcases hdisj with herr | hsucc | hpath | hpath
      · exact absurd he herr
      · simp [app_download_media, download_media, he, hsucc]
      · simp [app_download_media, download_media, he, hpath]
      · cases hs : (dgetD result "success" (.jbool false)).truthy <;>
          simp [app_download_media, download_media, he, hs, hpath, hempty]
  · intro hpath
    cases he : dget result "error" with
    | some v => exact Or.inl (by simp [app_download_media, download_media, he])
    | none =>
      cases hs : (dgetD result "success" (.jbool false)).truthy with
      | false => exact Or.inl (by simp [app_download_media, download_media, he, hs])
      | true =>
        rcases hpath with hnone | ⟨s, hsome⟩
        · exact Or.inl (by simp [app_download_media, download_media, he, hs, hnone])
        · by_cases hs0 : s = ""
          · subst hs0
            exact Or.inl
              (by simp [app_download_media, download_media, he, hs, hsome, hempty])
          · have hst : (JVal.jstr s).truthy = true := by simp [JVal.truthy, hs0]
            exact Or.inr ⟨s, hs0, rfl, rfl, hsome,
              by simp [app_download_media, download_media, he, hs, hsome, hst]⟩

/-- Witness for the C6 theorem: a successful bridge download with a
non-empty path, and a failed bridge download. -/
theorem download_media_result_shape_witness :
    app_download_media [("success", .jbool true), ("path", .jstr "/tmp/f.jpg")] =
      [("success", .jbool true), ("message", .jstr "Media downloaded successfully"),
        ("file_path", .jstr "/tmp/f.jpg")]
    ∧ app_download_media [("success", .jbool false)] =
      [("success", .jbool false), ("message", .jstr "Failed to download media")] :=
  ⟨(download_media_result_shape
      [("success", .jbool true), ("path", .jstr "/tmp/f.jpg")]).1
      "/tmp/f.jpg" rfl rfl rfl (by decide),
    (download_media_result_shape [("success", .jbool false)]).2.1
      (Or.inr (Or.inl rfl))⟩

/-- C7 counterexample: a successful resolution of an empty-string key
writes the cache, yet the next access runs resolution again, because the
property checks the cache with Python truthiness.  With the current
integration key meanwhile changed to zz, the later access returns zz and
overwrites the cache, so the cached value is neither returned nor
write-once. -/
theorem api_key_empty_key_reconsults_counterexample :
    api_key (mkApp (some { clientApiKey := some "", getCredentialsError := none })) =
      .ok ("", { mkApp (some { clientApiKey := some "", getCredentialsError := none }) with
        api_key_cache := some "" })
    ∧ api_key { mkApp (some { clientApiKey := some "zz", getCredentialsError := none }) with
        api_key_cache := some "" } =
      .ok ("zz", { mkApp (some { clientApiKey := some "zz", getCredentialsError := none }) with
        api_key_cache := some "zz" })
    ∧ ("zz" : String) ≠ "" :=
  ⟨rfl, rfl, by decide⟩

/-- Helper for C7: with a truthy cached key the WhatsApp auth flow
leaves the app state unchanged. -/
theorem authenticate_whatsapp_state_eq (app : WhatsappApp) (k : String)
    (resp : BridgeAuthResp) (h : app.api_key_cache = some k) (hk : k ≠ "") :
    (authenticate_whatsapp app resp).app = app := by
  have h1 : api_key app = .ok (k, app) := by simp [api_key, h, hk]
  have h2 : ∀ b, (authExceptionHandler app b).app = app := fun b => by
    simp [authExceptionHandler, h1, hk]
  cases resp with
  | ok status =>
    simp only [authenticate_whatsapp, h1]
    rw [if_neg hk]
    by_cases h3 : status = some "qr_required"
    · simp [h3]
    · by_cases h4 : status = some "connected" <;> simp [h3, h4]
  | httpErr code text =>
    simp only [authenticate_whatsapp, h1]
    rw [if_neg hk]
  | exn msg =>
    simp only [authenticate_whatsapp, h1]
    rw [if_neg hk]
    exact h2 true

/-- Helper for C7: with a truthy cached key the authenticator leaves the
app state unchanged. -/
theorem authenticator_state_eq (app : WhatsappApp) (k : String)
    (resp : BridgeAuthResp) (h : app.api_key_cache = some k) (hk : k ≠ "") :
    (authenticator app resp).2.1 = app := by
  cases hint : app.integration with
  | none =>
    have ha := authenticate_whatsapp_state_eq app k resp h hk
    simp only [authenticator, hint]
    cases hr : (authenticate_whatsapp app resp).result <;> simp [hr, ha]
  | some integ =>
    simp only [authenticator, hint]
    cases hc : integ.getCredentialsError <;> simp [hc]

/-- C7 amended: for a truthy (non-empty) key the cache is
write-once-then-read: a cached non-empty key is returned unchanged and
independently of the integration; the first successful resolution writes
the cache; and the auth flow and whole tool calls preserve a cached
non-empty key.  (A falsy cached key is re-resolved on every access; see
the counterexample.) -/
theorem api_key_write_once_for_truthy_keys :
    (∀ (app : WhatsappApp) (k : String), app.api_key_cache = some k → k ≠ "" →
      api_key app = .ok (k, app))
    ∧ (∀ (app : WhatsappApp) (k : String) (integ2 : Option Integration),
        app.api_key_cache = some k → k ≠ "" →
        api_key { app with integration := integ2 } =
          .ok (k, { app with integration := integ2 }))
    ∧ (∀ (app : WhatsappApp) (k : String), app.api_key_cache = none →
        get_api_key app = .ok k →
        api_key app = .ok (k, { app with api_key_cache := some k }))
    ∧ (∀ (app : WhatsappApp) (k : String) (resp : BridgeAuthResp),
        app.api_key_cache = some k → k ≠ "" →
        (authenticate_whatsapp app resp).app.api_key_cache = some k)
    ∧ (∀ {α : Type} (app : WhatsappApp) (k : String) (resp : BridgeAuthResp)
        (opResult : Dict) (op : Dict → Except PyError α),
        app.api_key_cache = some k → k ≠ "" →
        (toolCall app resp opResult op).app.api_key_cache = some k) := by
  refine ⟨fun app k h hk => by simp [api_key, h, hk],
    fun app k integ2 h hk => by simp [api_key, h, hk],
    fun app k h hg => by simp [api_key, h, hg],
    fun app k resp h hk => by rw [authenticate_whatsapp_state_eq app k resp h hk]; exact h,
    fun {α} app k resp opResult op h hk => ?_⟩
  have h1 : api_key app = .ok (k, app) := by simp [api_key, h, hk]
  have hstate := authenticator_state_eq app k resp h hk
  rcases hA : authenticator app resp with ⟨res, app1, bc⟩
  have happ1 : app1 = app := by rw [hA] at hstate; exact hstate
  subst happ1
  cases res with
  | error e => simp [toolCall, hA, h]
  | ok u => simp [toolCall, hA, h1, h]

/-- Witness for the C7 amended theorem, exercising each conjunct at a
concrete app with cached key K. -/
theorem api_key_write_once_for_truthy_keys_witness :
    api_key { mkApp none with api_key_cache := some "K" } =
      .ok ("K", { mkApp none with api_key_cache := some "K" })
    ∧ api_key { { mkApp none with api_key_cache := some "K" } with
        integration := some { clientApiKey := some "Z", getCredentialsError := none } } =
      .ok ("K", { { mkApp none with api_key_cache := some "K" } with
        integration := some { clientApiKey := some "Z", getCredentialsError := none } })
    ∧ api_key (mkApp (some { clientApiKey := some "K", getCredentialsError := none })) =
      .ok ("K", { mkApp (some { clientApiKey := some "K", getCredentialsError := none }) with
        api_key_cache := some "K" })
    ∧ (authenticate_whatsapp { mkApp none with api_key_cache := some "K" }
        (.exn "down")).app.api_key_cache = some "K"
    ∧ (toolCall { mkApp none with api_key_cache := some "K" }
        (.ok (some "connected")) [] search_contacts).app.api_key_cache = some "K" :=
  ⟨api_key_write_once_for_truthy_keys.1 _ "K" rfl (by decide),
    api_key_write_once_for_truthy_keys.2.1 _ "K"
      (some { clientApiKey := some "Z", getCredentialsError := none }) rfl (by decide),
    api_key_write_once_for_truthy_keys.2.2.1 _ "K" rfl rfl,
    api_key_write_once_for_truthy_keys.2.2.2.1 _ "K" (.exn "down") rfl (by decide),
    api_key_write_once_for_truthy_keys.2.2.2.2 _ "K" (.ok (some "connected")) []
      search_contacts rfl (by decide)⟩

/-- Helper for C10: the chat parsing loop propagates the first parse
failure in a payload. -/
theorem parseChats_append_raises (pre : List JVal) (c : JVal) (rest : List JVal)
    (e : PyError) (hpre : ∀ x ∈ pre, ∃ ch, parseChat x = .ok ch)
    (hc : parseChat c = .error e) :
    parseChats (pre ++ c :: rest) = .error e := by
  induction pre with
  | nil => simp [parseChats, hc, Bind.bind, Except.bind]
  | cons x xs ih =>
    obtain ⟨ch, hch⟩ := hpre x (by simp)
    have hxs := ih (fun y hy => hpre y (by simp [hy]))
    simp [parseChats, hch, hxs, Bind.bind, Except.bind, Functor.map, Except.map]

/-- Helper for C10: the contact parsing loop propagates the first parse
failure in a payload. -/
theorem parseContacts_append_raises (pre : List JVal) (c : JVal) (rest : List JVal)
    (e : PyError) (hpre : ∀ x ∈ pre, ∃ ct, parseContact x = .ok ct)
    (hc : parseContact c = .error e) :
    parseContacts (pre ++ c :: rest) = .error e := by
  induction pre with
  | nil => simp [parseContacts, hc, Bind.bind, Except.bind]
  | cons x xs ih =>
    obtain ⟨ct, hct⟩ := hpre x (by simp)
    have hxs := ih (fun y hy => hpre y (by simp [hy]))
    simp [parseContacts, hct, hxs, Bind.bind, Except.bind, Functor.map, Except.map]

/-- C10: a 200 success payload with a chat entry lacking the jid key (or
a contact entry lacking phone_number or jid) makes the parsing
operations raise KeyError; the fail-soft empty-result policy covers only
bridge error values, not malformed success payloads. -/
theorem malformed_success_payload_raises_key_error :
    (∀ fields : List (String × JVal), dget fields "jid" = none →
      parseChat (.jobj fields) = .error (.keyError "jid"))
    ∧ (∀ (result : Dict) (pre : List JVal) (fields : List (String × JVal))
        (rest : List JVal),
        dget result "error" = none →
        dgetD result "chats" (.jarr []) = .jarr (pre ++ .jobj fields :: rest) →
        (∀ x ∈ pre, ∃ ch, parseChat x = .ok ch) →
        dget fields "jid" = none →
        list_chats result = .error (.keyError "jid")
        ∧ get_contact_chats result = .error (.keyError "jid"))
    ∧ (∀ fields : List (String × JVal), dget fields "phone_number" = none →
        parseContact (.jobj fields) = .error (.keyError "phone_number"))
    ∧ (∀ (fields : List (String × JVal)) (v : String),
        dget fields "phone_number" = some (.jstr v) → dget fields "jid" = none →
        parseContact (.jobj fields) = .error (.keyError "jid"))
    ∧ (∀ (result : Dict) (pre : List JVal) (fields : List (String × JVal))
        (rest : List JVal),
        dget result "error" = none →
        dgetD result "contacts" (.jarr []) = .jarr (pre ++ .jobj fields :: rest) →
        (∀ x ∈ pre, ∃ ct, parseContact x = .ok ct) →
        (dget fields "phone_number" = none →
          search_contacts result = .error (.keyError "phone_number"))
        ∧ (∀ v : String, dget fields "phone_number" = some (.jstr v) →
            dget fields "jid" = none →
            search_contacts result = .error (.keyError "jid")))
    ∧ (∀ (result : Dict) (fields : List (String × JVal)),
        dget result "error" = none → dget result "chat" = some (.jobj fields) →
        (JVal.jobj fields).truthy = true → dget fields "jid" = none →
        get_chat result = .error (.keyError "jid")) := by
  have hchat : ∀ fields : List (String × JVal), dget fields "jid" = none →
      parseChat (.jobj fields) = .error (.keyError "jid") := fun fields h => by
    simp [parseChat, JVal.index, h, Bind.bind, Except.bind]
  have hcontact1 : ∀ fields : List (String × JVal), dget fields "phone_number" = none →
      parseContact (.jobj fields) = .error (.keyError "phone_number") := fun fields h => by
    simp [parseContact, JVal.index, h, Bind.bind, Except.bind]
  have hcontact2 : ∀ (fields : List (String × JVal)) (v : String),
      dget fields "phone_number" = some (.jstr v) → dget fields "jid" = none →
      parseContact (.jobj fields) = .error (.keyError "jid") := fun fields v hp hj => by
    simp [parseContact, JVal.index, JVal.jget, asStr, hp, hj, Bind.bind, Except.bind]
  refine ⟨hchat, ?_, hcontact1, hcontact2, ?_, ?_⟩
  · intro result pre fields rest herr hchats hpre hjid
    have hfail := parseChats_append_raises pre (.jobj fields) rest (.keyError "jid")
      hpre (hchat fields hjid)
    exact ⟨by simp [list_chats, herr, hchats, hfail],
      by simp [get_contact_chats, herr, hchats, hfail]⟩
  · intro result pre fields rest herr hcontacts hpre
    constructor
    · intro hp
      have hfail := parseContacts_append_raises pre (.jobj fields) rest
        (.keyError "phone_number") hpre (hcontact1 fields hp)
      simp [search_contacts, herr, hcontacts, hfail]
    · intro v hp hj
      have hfail := parseContacts_append_raises pre (.jobj fields) rest
        (.keyError "jid") hpre (hcontact2 fields v hp hj)
      simp [search_contacts, herr, hcontacts, hfail]
  · intro result fields herr hc ht hjid
    simp [get_chat, herr, hc, ht, hchat fields hjid, Bind.bind, Except.bind]

/-- Witness for the C10 theorem at concrete malformed success
payloads. -/
theorem malformed_success_payload_raises_key_error_witness :
    parseChat (.jobj [("name", .jstr "g")]) = .error (.keyError "jid")
    ∧ list_chats [("chats", .jarr [.jobj [("name", .jstr "g")]])] =
        .error (.keyError "jid")
    ∧ get_contact_chats [("chats", .jarr [.jobj [("name", .jstr "g")]])] =
        .error (.keyError "jid")
    ∧ search_contacts [("contacts", .jarr [.jobj []])] =
        .error (.keyError "phone_number")
    ∧ search_contacts [("contacts", .jarr [.jobj [("phone_number", .jstr "123")]])] =
        .error (.keyError "jid")
    ∧ get_chat [("chat", .jobj [("name", .jstr "g")])] = .error (.keyError "jid") :=
  ⟨malformed_success_payload_raises_key_error.1 [("name", .jstr "g")] rfl,
    (malformed_success_payload_raises_key_error.2.1
      [("chats", .jarr [.jobj [("name", .jstr "g")]])] [] [("name", .jstr "g")] []
      rfl rfl (by simp) rfl).1,
    (malformed_success_payload_raises_key_error.2.1
      [("chats", .jarr [.jobj [("name", .jstr "g")]])] [] [("name", .jstr "g")] []
      rfl rfl (by simp) rfl).2,
    (malformed_success_payload_raises_key_error.2.2.2.2.1
      [("contacts", .jarr [.jobj []])] [] [] [] rfl rfl (by simp)).1 rfl,
    (malformed_success_payload_raises_key_error.2.2.2.2.1
      [("contacts", .jarr [.jobj [("phone_number", .jstr "123")]])] []
      [("phone_number", .jstr "123")] [] rfl rfl (by simp)).2 "123" rfl rfl,
    malformed_success_payload_raises_key_error.2.2.2.2.2
      [("chat", .jobj [("name", .jstr "g")])] [("name", .jstr "g")] rfl rfl rfl rfl⟩

end WhatsappMcp
